import Mathlib

/-!
A shallow embedding of the two modules of this repository,
`pipeline/rag_query.py` and `pipeline/vertexai_rag_pipeline.py`, together
with theorems settling the specification's claims about them.

The repository is thin client glue over an external managed RAG backend
(corpus listing, corpus creation, file import, context retrieval).  The
backend is modelled as a record of functions supplied as a parameter; every
repository-side function is translated to a Lean function that, besides its
return value, records a trace of the requests it issued, so that claims
about *which* requests are made (and which are not) become provable.
-/

namespace RagSpec

/-- A RAG corpus as seen by this code: the service-assigned resource name
and the human-chosen display name (`corpus.name`, `corpus.display_name` in
the Python objects). -/
structure Corpus where
  name : String
  display_name : String
  deriving DecidableEq, Repr

/-- The errors raised by `rag_query.py`.  Both are Python `ValueError`s,
distinguished by their message:
`notFound d` is `ValueError(f"RAG corpus with display name '{d}' not found")`
(the spec's `NotFoundError`), and `missingCorpusName` is
`ValueError("corpus_name must be provided")` (the spec's
`ConfigurationError`). -/
inductive RagQueryError where
  | notFound (display_name : String)
  | missingCorpusName
  deriving DecidableEq, Repr

/-- `get_corpus_by_display_name` (rag_query.py lines 28-41): linear scan of
the corpus listing, returning the resource name of the first corpus whose
display name equals the input, else the not-found error.  The listing
`rag.list_corpora()` is passed in as the `corpora` argument; the caller
records that a listing call happened. -/
def get_corpus_by_display_name : List Corpus → String → Except RagQueryError String
  | [], d => .error (.notFound d)
  | c :: rest, d =>
      if c.display_name == d then .ok c.name
      else get_corpus_by_display_name rest d

/-- Python's `str.startswith(pre)` as used at rag_query.py line 80,
modelled character-by-character: `s` starts with the prefix string `pre`. -/
def startswith (s pre : String) : Bool :=
  pre.data.isPrefixOf s.data

/-- One retrieved context of the backend response (`ctx` in the loop at
rag_query.py lines 97-102). -/
structure RagContext where
  text : String
  source_uri : String
  score : ℚ
  deriving DecidableEq, Repr

/-- `response.contexts` of `rag.retrieve`. -/
structure RetrieveResponse where
  contexts : List RagContext
  deriving DecidableEq, Repr

/-- The retrieval request built by `query_rag_corpus`: the resolved corpus
resource name, the query text, and the `top_k` bound carried by
`rag.RagRetrievalConfig(top_k=top_k)`. -/
structure RetrieveRequest where
  corpus_name : String
  query : String
  top_k : ℕ
  deriving DecidableEq, Repr

/-- One result dictionary `{"text": ..., "source_uri": ..., "score": ...}`
built at rag_query.py lines 98-102. -/
structure RagResult where
  text : String
  source_uri : String
  score : ℚ
  deriving DecidableEq, Repr

/-- The external world `query_rag_corpus` talks to: the ambient
`vertexai.init` call (which may raise, modelled by `initError`), the corpus
listing served by `rag.list_corpora()`, and the `rag.retrieve` endpoint. -/
structure QueryBackend where
  initError : Option String
  corpora : List Corpus
  retrieve : RetrieveRequest → RetrieveResponse

/-- What one call of `query_rag_corpus` did: the warning logged if
`vertexai.init` raised, how many `rag.list_corpora()` calls were issued,
the `rag.retrieve` requests issued, and the returned value (or the error
raised). -/
structure QueryTrace where
  initWarning : Option String
  listCorporaCalls : ℕ
  retrieveRequests : List RetrieveRequest
  result : Except RagQueryError (List RagResult)

/-- The per-context dictionary construction of rag_query.py lines 98-102:
each field copied unchanged. -/
def ctxToResult (ctx : RagContext) : RagResult :=
  { text := ctx.text, source_uri := ctx.source_uri, score := ctx.score }

/-- `query_rag_corpus(query, corpus_name=None, top_k=5)`
(rag_query.py lines 47-104).  Steps, in source order:
1. `vertexai.init` inside `try/except`: an exception is caught and logged
   as a warning (`initWarning`), never propagated;
2. `corpus_name is None` check raising
   `ValueError("corpus_name must be provided")`;
3. the prefix check `corpus_name.startswith("projects/")`: pass through, or
   resolve via `get_corpus_by_display_name` (one `rag.list_corpora()` call);
4. the `rag.retrieve` request bounded to `top_k` (wrapped in `RAG_RETRY`,
   whose predicate retries nothing, so the wrapper returns the first
   outcome of the call — the retry combinator itself is modelled below);
5. the response contexts mapped one-to-one into result dictionaries. -/
def query_rag_corpus (b : QueryBackend) (query : String)
    (corpus_name : Option String) (top_k : ℕ) : QueryTrace :=
  match corpus_name with
  | none =>
      { initWarning := b.initError, listCorporaCalls := 0,
        retrieveRequests := [], result := .error .missingCorpusName }
  | some cn =>
      if startswith cn "projects/" then
        let req : RetrieveRequest :=
          { corpus_name := cn, query := query, top_k := top_k }
        { initWarning := b.initError, listCorporaCalls := 0,
          retrieveRequests := [req],
          result := .ok ((b.retrieve req).contexts.map ctxToResult) }
      else
        match get_corpus_by_display_name b.corpora cn with
        | .error e =>
            { initWarning := b.initError, listCorporaCalls := 1,
              retrieveRequests := [], result := .error e }
        | .ok resolved =>
            let req : RetrieveRequest :=
              { corpus_name := resolved, query := query, top_k := top_k }
            { initWarning := b.initError, listCorporaCalls := 1,
              retrieveRequests := [req],
              result := .ok ((b.retrieve req).contexts.map ctxToResult) }

/-!
## The retry policy

Both modules build the same `RAG_RETRY = retry.Retry(predicate=
retry.if_exception_type(), initial=1.0, maximum=10.0, multiplier=2.0,
deadline=120.0)` (vertexai_rag_pipeline.py lines 50-56, rag_query.py lines
17-23) and apply it to `rag.create_corpus`, `rag.import_files` and
`rag.retrieve`.  The combinator itself lives in the `google.api_core.retry`
SDK: it calls the wrapped target repeatedly; on an exception that the
predicate rejects it re-raises that exception at once; on a retryable
exception it sleeps (nominal exponential schedule `initial * multiplier^n`
capped at `maximum`; the SDK jitters uniformly below the nominal value) and
tries again, unless the total deadline is exceeded, in which case it raises
a wrapping `RetryError`.  `retry.if_exception_type()` called with an empty
argument list yields the predicate `isinstance(e, ())`, which is `False`
for every exception.
-/

/-- The four numeric knobs of `google.api_core.retry.Retry` as configured
by `RAG_RETRY` in both modules. -/
structure RetryPolicy where
  initial : ℚ
  maximum : ℚ
  multiplier : ℚ
  deadline : ℚ
  deriving DecidableEq, Repr

/-- `RAG_RETRY` (vertexai_rag_pipeline.py lines 50-56 and rag_query.py
lines 17-23): initial 1.0s, maximum 10.0s, multiplier 2.0, deadline
120.0s. -/
def RAG_RETRY : RetryPolicy :=
  { initial := 1, maximum := 10, multiplier := 2, deadline := 120 }

/-- The predicate produced by `retry.if_exception_type()` with no exception
types: `isinstance(e, ())`, false for every exception `e`. -/
def if_exception_type_empty {ε : Type} : ε → Bool :=
  fun _ => false

/-- One attempt of the wrapped target: it either returns a value or raises
an error. -/
inductive Attempt (α ε : Type) where
  | ok (a : α)
  | err (e : ε)
  deriving DecidableEq, Repr

/-- What a `Retry`-wrapped call does in the end: return a value, re-raise
an underlying error unchanged, or raise the SDK's generic
`RetryError` (deadline exceeded) wrapping the last underlying error. -/
inductive RetryOutcome (α ε : Type) where
  | ok (a : α)
  | raised (e : ε)
  | retryError (last : Option ε)
  deriving DecidableEq, Repr

/-- The nominal sleep before retry number `n + 1`:
`min maximum (initial * multiplier ^ n)` (the SDK's
`exponential_sleep_generator` draws uniformly below this value). -/
def nominalSleep (p : RetryPolicy) (n : ℕ) : ℚ :=
  min p.maximum (p.initial * p.multiplier ^ n)

/-- The retry loop of `google.api_core.retry` over an explicit list of
attempt outcomes (the behaviour of the target on successive calls):
return the first success; re-raise at once an error the predicate rejects;
otherwise sleep per `nominalSleep` and retry, raising `RetryError` wrapping
the last error once the accumulated sleep would pass the deadline.
`elapsed` is the time already slept and `n` the retry count. -/
def retry_target {α ε : Type} (pred : ε → Bool) (p : RetryPolicy) :
    ℚ → ℕ → List (Attempt α ε) → RetryOutcome α ε
  | _, _, [] => .retryError none
  | _, _, .ok a :: _ => .ok a
  | elapsed, n, .err e :: rest =>
      if pred e = false then .raised e
      else if p.deadline < elapsed + nominalSleep p n then .retryError (some e)
      else retry_target pred p (elapsed + nominalSleep p n) (n + 1) rest

/-- Applying `RAG_RETRY` to a target whose successive calls produce the
given outcomes, as every wrapped call in the repository does. -/
def rag_retry_call {α ε : Type} (attempts : List (Attempt α ε)) :
    RetryOutcome α ε :=
  retry_target if_exception_type_empty RAG_RETRY 0 0 attempts

/-!
## The ingestion module `vertexai_rag_pipeline.py`
-/

/-- `rag.VertexPredictionEndpoint` as built at lines 83-85. -/
structure VertexPredictionEndpoint where
  publisher_model : String
  deriving DecidableEq, Repr

/-- `rag.RagEmbeddingModelConfig` as built at lines 82-86. -/
structure RagEmbeddingModelConfig where
  vertex_prediction_endpoint : VertexPredictionEndpoint
  deriving DecidableEq, Repr

/-- `rag.RagVectorDbConfig` as built at lines 90-92. -/
structure RagVectorDbConfig where
  rag_embedding_model_config : RagEmbeddingModelConfig
  deriving DecidableEq, Repr

/-- `rag.ChunkingConfig` as built at lines 120-123. -/
structure ChunkingConfig where
  chunk_size : ℕ
  chunk_overlap : ℕ
  deriving DecidableEq, Repr

/-- `rag.TransformationConfig` as built at lines 119-124. -/
structure TransformationConfig where
  chunking_config : ChunkingConfig
  deriving DecidableEq, Repr

/-- The response of `rag.import_files`, read at lines 139-143. -/
structure ImportResponse where
  imported_rag_files_count : ℕ
  skipped_rag_files_count : ℕ
  deriving DecidableEq, Repr

/-- The `rag.import_files(corpus_name, paths, transformation_config=...)`
request submitted at lines 132-136. -/
structure ImportRequest where
  corpus_name : String
  paths : List String
  transformation_config : TransformationConfig
  deriving DecidableEq, Repr

/-- The external endpoints `vertexai_rag_pipeline.py` talks to:
`rag.create_corpus` and `rag.import_files`. -/
structure PipelineBackend where
  create_corpus : String → RagVectorDbConfig → Corpus
  import_files : ImportRequest → ImportResponse

/-- Module constant `CORPUS_DISPLAY_NAME` (line 34). -/
def CORPUS_DISPLAY_NAME : String := "MyVertexRagCorpus"

/-- Module constant `GCS_PATHS` (lines 37-40). -/
def GCS_PATHS : List String :=
  ["gs://bucketname/file1.pdf", "gs://bucketname/file2.txt"]

/-- `create_rag_corpus(display_name)` (lines 76-107): builds the fixed
embedding-model configuration (`text-embedding-005`), wraps it in the
vector-db backend configuration and submits one `rag.create_corpus`
request, returning the corpus object. -/
def create_rag_corpus (b : PipelineBackend) (display_name : String) :
    Corpus :=
  let embedding_config : RagEmbeddingModelConfig :=
    { vertex_prediction_endpoint :=
        { publisher_model := "publishers/google/models/text-embedding-005" } }
  let backend_config : RagVectorDbConfig :=
    { rag_embedding_model_config := embedding_config }
  b.create_corpus display_name backend_config

/-- The fixed chunking policy built inside `import_to_rag_corpus`
(lines 119-124): chunk size 512, overlap 64. -/
def fixed_transformation_config : TransformationConfig :=
  { chunking_config := { chunk_size := 512, chunk_overlap := 64 } }

/-- What one call of `import_to_rag_corpus` did: the single
`rag.import_files` request it submitted and the response it returned. -/
structure ImportTrace where
  request : ImportRequest
  response : ImportResponse
  deriving DecidableEq, Repr

/-- `import_to_rag_corpus(corpus_name, paths)` (lines 112-148): builds the
fixed transformation configuration and submits the full `paths` list,
untouched, in one `rag.import_files` request, returning the backend's
response object. -/
def import_to_rag_corpus (b : PipelineBackend) (corpus_name : String)
    (paths : List String) : ImportTrace :=
  let req : ImportRequest :=
    { corpus_name := corpus_name, paths := paths,
      transformation_config := fixed_transformation_config }
  { request := req, response := b.import_files req }

/-- What one call of `run_pipeline` did on the success path. -/
structure PipelineTrace where
  corpus : Corpus
  importTrace : ImportTrace
  deriving Repr

/-- `run_pipeline()` (lines 153-180), success path: create the corpus under
`CORPUS_DISPLAY_NAME`, sleep 4 seconds, then import `GCS_PATHS` into the
resource name of the corpus object just returned.  (The surrounding
`try/except` only logs and re-raises.) -/
def run_pipeline (b : PipelineBackend) : PipelineTrace :=
  let corpus := create_rag_corpus b CORPUS_DISPLAY_NAME
  { corpus := corpus,
    importTrace := import_to_rag_corpus b corpus.name GCS_PATHS }

/-!
## Concrete instances used to witness the hypotheses of the theorems below
-/

/-- A one-corpus listing: display name `Docs` backed by a fully-qualified
resource name. -/
def witnessCorpora : List Corpus :=
  [{ name := "projects/p/locations/l/ragCorpora/123", display_name := "Docs" }]

/-- A concrete query-side backend: initialization succeeds, the listing is
`witnessCorpora`, and retrieval answers every request with at most
`top_k` of two fixed contexts, scores descending. -/
def demoBackend : QueryBackend :=
  { initError := none,
    corpora := witnessCorpora,
    retrieve := fun req =>
      { contexts :=
          [{ text := "alpha", source_uri := "gs://bucketname/file1.pdf",
             score := 9 },
           { text := "beta", source_uri := "gs://bucketname/file2.txt",
             score := 7 }].take req.top_k } }

/-- A concrete ingestion-side backend: corpus creation echoes the display
name under a fixed resource name, and import reports every submitted path
as imported and none skipped. -/
def demoPipelineBackend : PipelineBackend :=
  { create_corpus := fun display_name _ =>
      { name := "projects/p/locations/l/ragCorpora/777",
        display_name := display_name },
    import_files := fun req =>
      { imported_rag_files_count := req.paths.length,
        skipped_rag_files_count := 0 } }

/-!
## Claims
-/

/-- C1: every create-corpus, import and retrieve call is wrapped in
`RAG_RETRY`, whose predicate `retry.if_exception_type()` matches no
exception — so the clause "any exception matching the retryable predicate
is retried" is vacuously satisfied — whose backoff schedule starts at 1
second and doubles up to the 10 second ceiling under a 120 second total
deadline, and which surfaces the underlying error of a failing call itself
to the caller (the first error is the last error, and the generic
`RetryError` deadline wrapper is never produced). -/
theorem C1_retry_surfaces_underlying_error {α ε : Type} (e x : ε)
    (rest : List (Attempt α ε)) (n : ℕ) :
    (rag_retry_call (Attempt.err e :: rest) : RetryOutcome α ε) =
      RetryOutcome.raised e ∧
    if_exception_type_empty x = false ∧
    RAG_RETRY =
      { initial := 1, maximum := 10, multiplier := 2, deadline := 120 } ∧
    nominalSleep RAG_RETRY 0 = 1 ∧
    nominalSleep RAG_RETRY (n + 1) = min 10 (2 * nominalSleep RAG_RETRY n) := by
  refine ⟨rfl, rfl, rfl, by norm_num [nominalSleep, RAG_RETRY], ?_⟩
  simp only [nominalSleep, RAG_RETRY, one_mul]
  rcases le_total ((2 : ℚ) ^ n) 10 with h | h
  · rw [min_eq_right h, pow_succ, mul_comm]
  · have h1 : (10 : ℚ) ≤ 2 ^ (n + 1) :=
      le_trans h (pow_le_pow_right₀ one_le_two (Nat.le_succ n))
    rw [min_eq_left h, min_eq_left h1]
    norm_num

/-- C2: a display name that is the display name of no corpus in the
listing makes `get_corpus_by_display_name` raise the not-found error (the
spec's `NotFoundError`, a `ValueError` in the source). -/
theorem C2_unknown_display_name_not_found (corpora : List Corpus)
    (d : String) (h : ∀ c ∈ corpora, c.display_name ≠ d) :
    get_corpus_by_display_name corpora d =
      .error (.notFound d) := by
  induction corpora with
  | nil => rfl
  | cons c rest ih =>
      have hc : (c.display_name == d) = false := by
        simpa using h c (List.mem_cons_self c rest)
      simp only [get_corpus_by_display_name, hc, Bool.false_eq_true,
        if_false]
      exact ih fun c' h' => h c' (List.mem_cons_of_mem _ h')

/-- Witness for C2 on a concrete listing and display name. -/
theorem C2_witness :
    (∀ c ∈ witnessCorpora, c.display_name ≠ "Missing") ∧
    get_corpus_by_display_name witnessCorpora "Missing" =
      .error (.notFound "Missing") :=
  ⟨by decide,
    C2_unknown_display_name_not_found witnessCorpora "Missing" (by decide)⟩

/-- C3: an input that already starts with `projects/` is passed through
unchanged by `query_rag_corpus` — the retrieval request carries exactly
that string — and no corpus-listing call is issued. -/
theorem C3_resource_path_passthrough (b : QueryBackend) (q cn : String)
    (k : ℕ) (h : startswith cn "projects/" = true) :
    (query_rag_corpus b q (some cn) k).listCorporaCalls = 0 ∧
    (query_rag_corpus b q (some cn) k).retrieveRequests =
      [{ corpus_name := cn, query := q, top_k := k }] := by
  simp [query_rag_corpus, h]

/-- Witness for C3 on a concrete fully-qualified resource path. -/
theorem C3_witness :
    startswith "projects/p/locations/l/ragCorpora/123" "projects/" = true ∧
    ((query_rag_corpus demoBackend "What is X?"
        (some "projects/p/locations/l/ragCorpora/123") 5).listCorporaCalls
        = 0 ∧
      (query_rag_corpus demoBackend "What is X?"
        (some "projects/p/locations/l/ragCorpora/123") 5).retrieveRequests =
        [{ corpus_name := "projects/p/locations/l/ragCorpora/123",
           query := "What is X?", top_k := 5 }]) :=
  ⟨by decide,
    C3_resource_path_passthrough demoBackend "What is X?"
      "projects/p/locations/l/ragCorpora/123" 5 (by decide)⟩

/-- C4: calling `query_rag_corpus` with `corpus_name` unset raises the
configuration error (`ValueError("corpus_name must be provided")`) with no
listing call and no retrieval request issued. -/
theorem C4_unset_corpus_name_configuration_error (b : QueryBackend)
    (q : String) (k : ℕ) :
    query_rag_corpus b q none k =
      { initWarning := b.initError, listCorporaCalls := 0,
        retrieveRequests := [],
        result := .error .missingCorpusName } :=
  rfl

/-- C5: when the listing contains a match, `get_corpus_by_display_name`
returns the resource name of the first corpus (in listing order) whose
display name equals the input exactly, whatever comes after it — even
further corpora with the same display name. -/
theorem C5_first_match_wins (earlier : List Corpus) (c : Corpus)
    (later : List Corpus) (d : String)
    (hearlier : ∀ c' ∈ earlier, c'.display_name ≠ d)
    (hc : c.display_name = d) :
    get_corpus_by_display_name (earlier ++ c :: later) d = .ok c.name := by
  induction earlier with
  | nil =>
      simp [get_corpus_by_display_name, hc]
  | cons e rest ih =>
      have he : (e.display_name == d) = false := by
        simpa using hearlier e (List.mem_cons_self e rest)
      simp only [List.cons_append, get_corpus_by_display_name, he,
        Bool.false_eq_true, if_false]
      exact ih fun c' h' => hearlier c' (List.mem_cons_of_mem _ h')

/-- Witness for C5 on a listing where two corpora share the display name
`Docs`: the first one wins. -/
theorem C5_witness :
    (∀ c' ∈ ([{ name := "projects/p/locations/l/ragCorpora/0",
                display_name := "Other" }] : List Corpus),
        c'.display_name ≠ "Docs") ∧
    get_corpus_by_display_name
      ([{ name := "projects/p/locations/l/ragCorpora/0",
          display_name := "Other" }] ++
        { name := "projects/p/locations/l/ragCorpora/1",
          display_name := "Docs" } ::
          [{ name := "projects/p/locations/l/ragCorpora/2",
             display_name := "Docs" }]) "Docs" =
      .ok "projects/p/locations/l/ragCorpora/1" :=
  ⟨by decide,
    C5_first_match_wins
      [{ name := "projects/p/locations/l/ragCorpora/0",
         display_name := "Other" }]
      { name := "projects/p/locations/l/ragCorpora/1",
        display_name := "Docs" }
      [{ name := "projects/p/locations/l/ragCorpora/2",
         display_name := "Docs" }]
      "Docs" (by decide) rfl⟩

/-- C6: the value returned by `query_rag_corpus` is exactly the backend's
context list for the resolved corpus, mapped one-to-one and in order
through the field-copying `ctxToResult` — no re-ranking, filtering,
truncation or caching. -/
theorem C6_response_passthrough (b : QueryBackend) (q cn : String)
    (k : ℕ) :
    (query_rag_corpus b q (some cn) k).result =
      (if startswith cn "projects/" then Except.ok cn
        else get_corpus_by_display_name b.corpora cn).map
        (fun r =>
          (b.retrieve
            { corpus_name := r, query := q, top_k := k }).contexts.map
            ctxToResult) := by
  cases hb : startswith cn "projects/" with
  | true => simp [query_rag_corpus, hb, Except.map]
  | false =>
      cases hg : get_corpus_by_display_name b.corpora cn with
      | error err => simp [query_rag_corpus, hb, hg, Except.map]
      | ok r => simp [query_rag_corpus, hb, hg, Except.map]

/-- C7: a `query_rag_corpus` call with `top_k = 5` submits exactly one
retrieval request bounded to 5 results; and provided the backend honours
the bound and returns its contexts in descending score order, the returned
list holds at most 5 passages with scores descending as received. -/
theorem C7_topk_five_bounded (b : QueryBackend) (q cn r : String)
    (hres : (if startswith cn "projects/" then Except.ok cn
        else get_corpus_by_display_name b.corpora cn) = Except.ok r)
    (hlen : (b.retrieve
        { corpus_name := r, query := q, top_k := 5 }).contexts.length ≤ 5)
    (hdesc : ((b.retrieve
        { corpus_name := r, query := q, top_k := 5 }).contexts.map
        RagContext.score).Pairwise (fun a s => s ≤ a)) :
    (query_rag_corpus b q (some cn) 5).retrieveRequests =
      [{ corpus_name := r, query := q, top_k := 5 }] ∧
    ∃ l, (query_rag_corpus b q (some cn) 5).result = Except.ok l ∧
      l.length ≤ 5 ∧
      (l.map RagResult.score).Pairwise (fun a s => s ≤ a) := by
  cases hb : startswith cn "projects/" with
  | true =>
      rw [hb] at hres
      simp only [if_true] at hres
      obtain rfl : cn = r := by simpa using hres
      refine ⟨by simp [query_rag_corpus, hb], ?_⟩
      refine ⟨(b.retrieve
          { corpus_name := cn, query := q, top_k := 5 }).contexts.map
          ctxToResult,
        by simp [query_rag_corpus, hb], by simpa using hlen, ?_⟩
      simpa [List.map_map, Function.comp, ctxToResult] using hdesc
  | false =>
      rw [hb] at hres
      simp only [Bool.false_eq_true, if_false] at hres
      refine ⟨by simp [query_rag_corpus, hb, hres], ?_⟩
      refine ⟨(b.retrieve
          { corpus_name := r, query := q, top_k := 5 }).contexts.map
          ctxToResult,
        by simp [query_rag_corpus, hb, hres], by simpa using hlen, ?_⟩
      simpa [List.map_map, Function.comp, ctxToResult] using hdesc

/-- Witness for C7: the spec's scenario — display name `Docs` resolves to
`projects/p/locations/l/ragCorpora/123` and the query returns at most 5
passages with descending scores. -/
theorem C7_witness :
    ((if startswith "Docs" "projects/" then Except.ok "Docs"
        else get_corpus_by_display_name demoBackend.corpora "Docs") =
      Except.ok "projects/p/locations/l/ragCorpora/123") ∧
    ((query_rag_corpus demoBackend "What is X?" (some "Docs")
        5).retrieveRequests =
      [{ corpus_name := "projects/p/locations/l/ragCorpora/123",
         query := "What is X?", top_k := 5 }] ∧
      ∃ l, (query_rag_corpus demoBackend "What is X?" (some "Docs")
          5).result = Except.ok l ∧
        l.length ≤ 5 ∧
        (l.map RagResult.score).Pairwise (fun a s => s ≤ a)) :=
  ⟨rfl,
    C7_topk_five_bounded demoBackend "What is X?" "Docs"
      "projects/p/locations/l/ragCorpora/123"
      rfl (by decide) (by decide)⟩

/-- C8: `import_to_rag_corpus` with an empty URI list still submits a
single batch request — carrying the empty list untouched and the fixed
chunking policy — and passes the backend's summary through, so a backend
reporting zero imported and zero skipped yields exactly those counts; and
for every path list the submitted request carries it verbatim. -/
theorem C8_empty_import_still_submitted (b : PipelineBackend) (cn : String)
    (hb : b.import_files
        { corpus_name := cn, paths := [],
          transformation_config := fixed_transformation_config } =
      { imported_rag_files_count := 0, skipped_rag_files_count := 0 }) :
    (import_to_rag_corpus b cn []).request =
      { corpus_name := cn, paths := [],
        transformation_config := fixed_transformation_config } ∧
    (import_to_rag_corpus b cn []).response.imported_rag_files_count = 0 ∧
    (import_to_rag_corpus b cn []).response.skipped_rag_files_count = 0 ∧
    ∀ paths : List String,
      (import_to_rag_corpus b cn paths).request.paths = paths :=
  ⟨rfl, by rw [import_to_rag_corpus, hb], by rw [import_to_rag_corpus, hb],
    fun _ => rfl⟩

/-- Witness for C8 on a concrete backend whose import summary counts the
submitted paths. -/
theorem C8_witness :
    (demoPipelineBackend.import_files
        { corpus_name := "projects/p/locations/l/ragCorpora/777",
          paths := [],
          transformation_config := fixed_transformation_config } =
      { imported_rag_files_count := 0, skipped_rag_files_count := 0 }) ∧
    ((import_to_rag_corpus demoPipelineBackend
        "projects/p/locations/l/ragCorpora/777" []).request =
      { corpus_name := "projects/p/locations/l/ragCorpora/777",
        paths := [],
        transformation_config := fixed_transformation_config } ∧
      (import_to_rag_corpus demoPipelineBackend
        "projects/p/locations/l/ragCorpora/777"
        []).response.imported_rag_files_count = 0 ∧
      (import_to_rag_corpus demoPipelineBackend
        "projects/p/locations/l/ragCorpora/777"
        []).response.skipped_rag_files_count = 0 ∧
      ∀ paths : List String,
        (import_to_rag_corpus demoPipelineBackend
          "projects/p/locations/l/ragCorpora/777"
          paths).request.paths = paths) :=
  ⟨rfl,
    C8_empty_import_still_submitted demoPipelineBackend
      "projects/p/locations/l/ragCorpora/777" rfl⟩

/-- C9: a failing `vertexai.init` inside `query_rag_corpus` is caught and
logged as a warning, never propagated: the whole trace is the one of the
same call with a succeeding initialization, except for the recorded
warning. -/
theorem C9_init_failure_only_warns (b : QueryBackend) (e q : String)
    (cn : Option String) (k : ℕ) :
    query_rag_corpus { b with initError := some e } q cn k =
      { query_rag_corpus { b with initError := none } q cn k with
        initWarning := some e } := by
  cases cn with
  | none => rfl
  | some s =>
      simp only [query_rag_corpus]
      split
      · rfl
      · split <;> rfl

/-- C10: `run_pipeline` imports into exactly the corpus created in the
same run — the single import request's corpus name is the `name` field of
the object returned by `create_rag_corpus(CORPUS_DISPLAY_NAME)`, and no
other corpus reference appears. -/
theorem C10_import_bound_to_created_corpus (b : PipelineBackend) :
    (run_pipeline b).corpus = create_rag_corpus b CORPUS_DISPLAY_NAME ∧
    (run_pipeline b).importTrace.request =
      { corpus_name := (create_rag_corpus b CORPUS_DISPLAY_NAME).name,
        paths := GCS_PATHS,
        transformation_config := fixed_transformation_config } :=
  ⟨rfl, rfl⟩

end RagSpec
